/-
Verification of the input-state cache and window-state model of the
show-image backend (src/backend/mouse_cache.rs and src/backend/window.rs).

The Rust code is shallowly embedded: BTreeMap becomes an association list
with at most one entry per key, winit identifier types become natural
numbers, f64/f32 values become rationals, and each Rust method becomes a
Lean function of the same name that passes the mutated state explicitly.
-/
import Mathlib

set_option autoImplicit false

namespace ShowImage

/-- Model of winit::window::WindowId: an opaque identifier, embedded as a natural number. -/
abbrev WindowId := Nat

/-- Model of winit::event::DeviceId: an opaque identifier, embedded as a natural number. -/
abbrev DeviceId := Nat

/-- Model of winit::dpi::PhysicalPosition of f64: the two f64 coordinates are embedded as rationals. -/
abbrev Position := Rat × Rat

/-- Model of a logical mouse-button identifier, embedded as a natural number; the winit-to-crate button conversion in the source is the identity here. -/
abbrev MouseButton := Nat

/-- Model of std BTreeMap get (the source follows it with copied, which is the identity here): the value at the first entry with the key, if any. -/
def btGet {κ β : Type} [DecidableEq κ] : List (κ × β) → κ → Option β
  | [], _ => none
  | (a, b) :: rest, k => if a = k then some b else btGet rest k

/-- Model of assigning through a BTreeMap entry reference: replace the value at the key, or append the entry when the key is absent. -/
def btSet {κ β : Type} [DecidableEq κ] : List (κ × β) → κ → β → List (κ × β)
  | [], k, v => [(k, v)]
  | (a, b) :: rest, k, v => if a = k then (k, v) :: rest else (a, b) :: btSet rest k v

/-- Model of BTreeMap entry().or_insert_with()/or_default(): insert the default value when the key is absent, keep the map unchanged otherwise. -/
def btOrInsert {κ β : Type} [DecidableEq κ] (m : List (κ × β)) (k : κ) (v : β) : List (κ × β) :=
  match btGet m k with
  | some _ => m
  | none => m ++ [(k, v)]

/-- Model of BTreeMap remove: drop every entry with the key (the model keeps at most one). -/
def btRemove {κ β : Type} [DecidableEq κ] : List (κ × β) → κ → List (κ × β)
  | [], _ => []
  | (a, b) :: rest, k => if a = k then btRemove rest k else (a, b) :: btRemove rest k

/-- Model of BTreeMap keys: the keys in entry order. -/
def btKeys {κ β : Type} (m : List (κ × β)) : List κ :=
  m.map Prod.fst

/-- Modelled from the spec: crate::event::MouseButtonState is not under src. Per the data model it is a per-device set of boolean "is pressed" flags keyed by logical button identifier, defaulting to all released; embedded as a finite map from button to its pressed flag, an absent button meaning released. -/
abbrev MouseButtonState := List (MouseButton × Bool)

/-- Modelled from the spec: MouseButtonState::set_pressed sets the pressed flag of one button and leaves all others unaffected. -/
def MouseButtonState.set_pressed (s : MouseButtonState) (button : MouseButton) (pressed : Bool) : MouseButtonState :=
  btSet s button pressed

/-- Model of winit::event::ElementState. -/
inductive ElementState where
  | pressed
  | released
deriving DecidableEq

/-- Model of the winit::event::WindowEvent variants the source distinguishes: MouseInput and CursorMoved are handled, everything else falls to the catch-all arm (CloseRequested shown explicitly, any further variant carried by a tag). -/
inductive WinEvent where
  | mouseInput (device_id : DeviceId) (button : MouseButton) (state : ElementState)
  | cursorMoved (device_id : DeviceId) (position : Position)
  | closeRequested
  | otherWindowEvent (tag : Nat)
deriving DecidableEq

/-- Model of the winit::event::DeviceEvent variants the source distinguishes: only Removed is handled (Added shown explicitly, any further variant carried by a tag). -/
inductive DevEvent where
  | removed
  | added
  | otherDeviceEvent (tag : Nat)
deriving DecidableEq

/-- Model of winit::event::Event with a unit user-event type: window events, device events, and every other top-level variant carried by a tag. -/
inductive Event where
  | windowEvent (window_id : WindowId) (event : WinEvent)
  | deviceEvent (device_id : DeviceId) (event : DevEvent)
  | otherEvent (tag : Nat)
deriving DecidableEq

/-- MouseCache (src/backend/mouse_cache.rs lines 8-13): three BTreeMaps. -/
structure MouseCache where
  mouse_buttons : List (DeviceId × MouseButtonState)
  mouse_position : List ((WindowId × DeviceId) × Position)
  mouse_previous_position : List ((WindowId × DeviceId) × Position)
deriving DecidableEq

/-- Model of the derived Default for MouseCache: all three maps empty. -/
def MouseCache.default : MouseCache :=
  ⟨[], [], []⟩

/-- MouseCache::get_position (lines 16-18). -/
def MouseCache.get_position (c : MouseCache) (window_id : WindowId) (device_id : DeviceId) : Option Position :=
  btGet c.mouse_position (window_id, device_id)

/-- MouseCache::get_previous_position (lines 20-22). -/
def MouseCache.get_previous_position (c : MouseCache) (window_id : WindowId) (device_id : DeviceId) : Option Position :=
  btGet c.mouse_previous_position (window_id, device_id)

/-- MouseCache::get_buttons (lines 24-26); the reference return is embedded by value. -/
def MouseCache.get_buttons (c : MouseCache) (device_id : DeviceId) : Option MouseButtonState :=
  btGet c.mouse_buttons device_id

/-- MouseCache::handle_window_event (lines 36-50). The MouseInput arm takes the or_default entry and sets the button's pressed flag; the CursorMoved arm or-inserts [0,0] into both position maps, copies the current position into the previous one, then stores the new position; the entry references of the source become or-insert followed by reads and writes at the key. -/
def MouseCache.handle_window_event (c : MouseCache) (window_id : WindowId) (event : WinEvent) : MouseCache :=
  match event with
  | .mouseInput device_id button state =>
    let mouse_buttons := btOrInsert c.mouse_buttons device_id []
    let buttons := (btGet mouse_buttons device_id).getD []
    let mouse_buttons := btSet mouse_buttons device_id
      (buttons.set_pressed button (state == ElementState.pressed))
    { c with mouse_buttons := mouse_buttons }
  | .cursorMoved device_id position =>
    let mouse_position := btOrInsert c.mouse_position (window_id, device_id) ((0 : Rat), (0 : Rat))
    let mouse_previous_position :=
      btOrInsert c.mouse_previous_position (window_id, device_id) ((0 : Rat), (0 : Rat))
    let cached_position :=
      (btGet mouse_position (window_id, device_id)).getD ((0 : Rat), (0 : Rat))
    let mouse_previous_position :=
      btSet mouse_previous_position (window_id, device_id) cached_position
    let mouse_position := btSet mouse_position (window_id, device_id) position
    { c with mouse_position := mouse_position, mouse_previous_position := mouse_previous_position }
  | _ => c

/-- MouseCache::remove_device (lines 58-68): drop the button entry, then collect and remove every position key and every previous-position key whose device component equals the removed device. -/
def MouseCache.remove_device (c : MouseCache) (device_id : DeviceId) : MouseCache :=
  let mouse_buttons := btRemove c.mouse_buttons device_id
  let keys := (btKeys c.mouse_position).filter (fun k => k.2 == device_id)
  let mouse_position := keys.foldl btRemove c.mouse_position
  let keys := (btKeys c.mouse_previous_position).filter (fun k => k.2 == device_id)
  let mouse_previous_position := keys.foldl btRemove c.mouse_previous_position
  ⟨mouse_buttons, mouse_position, mouse_previous_position⟩

/-- MouseCache::handle_device_event (lines 52-56): only Removed is handled. -/
def MouseCache.handle_device_event (c : MouseCache) (device_id : DeviceId) (event : DevEvent) : MouseCache :=
  match event with
  | .removed => c.remove_device device_id
  | _ => c

/-- MouseCache::handle_event (lines 28-34): dispatch on the top-level event kind. -/
def MouseCache.handle_event (c : MouseCache) (event : Event) : MouseCache :=
  match event with
  | .windowEvent window_id event => c.handle_window_event window_id event
  | .deviceEvent device_id event => c.handle_device_event device_id event
  | _ => c

/-- Folding MouseCache::handle_event over a list of events, in order. -/
def MouseCache.processEvents (c : MouseCache) (events : List Event) : MouseCache :=
  events.foldl MouseCache.handle_event c

/-- Alignment of the two position maps: both lookups are defined for exactly the same keys. -/
def keysAligned (c : MouseCache) : Prop :=
  ∀ w d, (c.get_position w d).isSome = (c.get_previous_position w d).isSome

/-- A concrete event sequence exercising two devices (0 and 1) across two windows (1 and 2), used to instantiate universally quantified theorems. -/
def sampleEvents : List Event :=
  [Event.windowEvent 1 (WinEvent.mouseInput 0 4 ElementState.pressed),
   Event.windowEvent 1 (WinEvent.mouseInput 1 4 ElementState.pressed),
   Event.windowEvent 1 (WinEvent.cursorMoved 0 (2, 3)),
   Event.windowEvent 2 (WinEvent.cursorMoved 0 (4, 5)),
   Event.windowEvent 1 (WinEvent.cursorMoved 1 (6, 7))]

/-- Modelled from the spec: crate::Color is not under src; it is used here only as the window background color value, with Color::BLACK its black constant. Embedded as RGBA components. -/
structure Color where
  red : Rat
  green : Rat
  blue : Rat
  alpha : Rat
deriving DecidableEq

/-- Modelled from the spec: the black color constant Color::BLACK, fully opaque black. -/
def Color.BLACK : Color :=
  ⟨0, 0, 0, 1⟩

/-- Modelled from the spec: crate::backend::util::Texture is not under src; the scale computation only reads its width() and height(), so it is embedded as the pixel dimensions of the cached image. -/
structure Texture where
  width : Nat
  height : Nat
deriving DecidableEq

/-- WindowOptions (src/backend/window.rs lines 66-90); the [u32;2] size is embedded as a pair of naturals. -/
structure WindowOptions where
  preserve_aspect_ratio : Bool
  background_color : Color
  start_hidden : Bool
  size : Option (Nat × Nat)
  resizable : Bool
deriving DecidableEq

/-- Default for WindowOptions (lines 92-102). -/
def WindowOptions.default : WindowOptions :=
  { preserve_aspect_ratio := true
    background_color := Color.BLACK
    start_hidden := false
    size := none
    resizable := true }

/-- WindowOptions::set_preserve_aspect_ratio (lines 108-111). -/
def WindowOptions.set_preserve_aspect_ratio (o : WindowOptions) (preserve_aspect_ratio : Bool) : WindowOptions :=
  { o with preserve_aspect_ratio := preserve_aspect_ratio }

/-- WindowOptions::set_background_color (lines 115-118). -/
def WindowOptions.set_background_color (o : WindowOptions) (background_color : Color) : WindowOptions :=
  { o with background_color := background_color }

/-- WindowOptions::set_start_hidden (lines 123-126). -/
def WindowOptions.set_start_hidden (o : WindowOptions) (start_hidden : Bool) : WindowOptions :=
  { o with start_hidden := start_hidden }

/-- WindowOptions::set_size (lines 133-136): stores Some(size). -/
def WindowOptions.set_size (o : WindowOptions) (size : Nat × Nat) : WindowOptions :=
  { o with size := some size }

/-- WindowOptions::set_resizable (lines 143-146). -/
def WindowOptions.set_resizable (o : WindowOptions) (resizable : Bool) : WindowOptions :=
  { o with resizable := resizable }

/-- Window (src/backend/window.rs lines 11-19), restricted to what calculate_scale reads: the options, the optional image texture, and the native window's inner size (width, height). The GPU surface, swap chain, uniforms buffer and the event-handler closures are opaque external resources that do not influence the scale and are not embedded. -/
structure Window where
  options : WindowOptions
  image : Option Texture
  inner_size : Nat × Nat
deriving DecidableEq

/-- Window::calculate_scale (lines 164-180), with the f32 arithmetic embedded over the rationals: the two divisions, the comparison and the final division are carried out exactly. -/
def Window.calculate_scale (w : Window) : Rat × Rat :=
  if !w.options.preserve_aspect_ratio then
    (1, 1)
  else
    match w.image with
    | some image =>
      let image_size : Rat × Rat := ((image.width : Rat), (image.height : Rat))
      let window_size : Rat × Rat := ((w.inner_size.1 : Rat), (w.inner_size.2 : Rat))
      let ratios : Rat × Rat := (image_size.1 / window_size.1, image_size.2 / window_size.2)
      if ratios.1 ≥ ratios.2 then
        (1, ratios.2 / ratios.1)
      else
        (ratios.1 / ratios.2, 1)
    | none => (1, 1)

/-- WindowUniforms (lines 183-187). -/
structure WindowUniforms where
  scale : Rat × Rat
deriving DecidableEq

/-- Default for WindowUniforms (lines 189-195). -/
def WindowUniforms.default : WindowUniforms :=
  ⟨(1, 1)⟩

/-- Window::calculate_uniforms (lines 158-162). -/
def Window.calculate_uniforms (w : Window) : WindowUniforms :=
  ⟨w.calculate_scale⟩

/-- Modelled from the spec: crate::error::InvalidWindowIdError is not under src; the single error kind of this core, raised when a WindowHandle operation references a window id absent from the owning context. It carries the offending id. -/
structure InvalidWindowIdError where
  window_id : WindowId
deriving DecidableEq

/-- Modelled from the spec: crate::Image is not under src and its content is opaque to this core; embedded as a tag. -/
abbrev Image := Nat

/-- Modelled from the spec: the per-window state the owning context holds that the WindowHandle operations can mutate — visibility, the current named image, and the ordered event-handler sequence; handler closures are opaque and embedded as tags. -/
structure CtxWindow where
  visible : Bool
  image : Option (String × Image)
  event_handlers : List Nat
deriving DecidableEq

/-- Modelled from the spec: the owning context (crate::ContextHandle is not under src) resolves a WindowId to a live window or reports invalidity; embedded as a finite map from window id to per-window state. -/
structure Context where
  windows : List (WindowId × CtxWindow)
deriving DecidableEq

/-- Modelled from the spec: ContextHandle::destroy_window — removes the window when the id resolves, otherwise returns the invalid-id error and leaves every window untouched. The Rust Result of unit is the Except component; the mutated context is passed alongside. -/
def Context.destroy_window (ctx : Context) (window_id : WindowId) : Context × Except InvalidWindowIdError Unit :=
  match btGet ctx.windows window_id with
  | some _ => (⟨btRemove ctx.windows window_id⟩, Except.ok ())
  | none => (ctx, Except.error ⟨window_id⟩)

/-- Modelled from the spec: ContextHandle::set_window_visible — updates the window's visibility when the id resolves, otherwise returns the invalid-id error with the context untouched. -/
def Context.set_window_visible (ctx : Context) (window_id : WindowId) (visible : Bool) : Context × Except InvalidWindowIdError Unit :=
  match btGet ctx.windows window_id with
  | some win => (⟨btSet ctx.windows window_id { win with visible := visible }⟩, Except.ok ())
  | none => (ctx, Except.error ⟨window_id⟩)

/-- Modelled from the spec: ContextHandle::set_window_image — stores the named image on the window when the id resolves, otherwise returns the invalid-id error with the context untouched. -/
def Context.set_window_image (ctx : Context) (window_id : WindowId) (name : String) (image : Image) : Context × Except InvalidWindowIdError Unit :=
  match btGet ctx.windows window_id with
  | some win => (⟨btSet ctx.windows window_id { win with image := some (name, image) }⟩, Except.ok ())
  | none => (ctx, Except.error ⟨window_id⟩)

/-- Modelled from the spec: ContextHandle::add_window_event_handler — appends the handler to the window's handler sequence when the id resolves, otherwise returns the invalid-id error with the context untouched. -/
def Context.add_window_event_handler (ctx : Context) (window_id : WindowId) (handler : Nat) : Context × Except InvalidWindowIdError Unit :=
  match btGet ctx.windows window_id with
  | some win =>
    (⟨btSet ctx.windows window_id { win with event_handlers := win.event_handlers ++ [handler] }⟩,
      Except.ok ())
  | none => (ctx, Except.error ⟨window_id⟩)

/-- Modelled from the spec: ContextHandle::add_boxed_window_event_handler — the boxed variant of handler registration, with the same semantics. -/
def Context.add_boxed_window_event_handler (ctx : Context) (window_id : WindowId) (handler : Nat) : Context × Except InvalidWindowIdError Unit :=
  match btGet ctx.windows window_id with
  | some win =>
    (⟨btSet ctx.windows window_id { win with event_handlers := win.event_handlers ++ [handler] }⟩,
      Except.ok ())
  | none => (ctx, Except.error ⟨window_id⟩)

/-- WindowHandle (src/backend/window.rs lines 21-24): a context handle plus a window id; the context handle is embedded as the context state it gives access to. -/
structure WindowHandle where
  context_handle : Context
  window_id : WindowId
deriving DecidableEq

/-- WindowHandle::id (lines 31-33). -/
def WindowHandle.id (h : WindowHandle) : WindowId :=
  h.window_id

/-- WindowHandle::destroy (lines 39-41): forwards destroy_window to the owning context with the stored id. -/
def WindowHandle.destroy (h : WindowHandle) : Context × Except InvalidWindowIdError Unit :=
  h.context_handle.destroy_window h.window_id

/-- WindowHandle::set_visible (lines 43-45): forwards set_window_visible to the owning context with the stored id. -/
def WindowHandle.set_visible (h : WindowHandle) (visible : Bool) : Context × Except InvalidWindowIdError Unit :=
  h.context_handle.set_window_visible h.window_id visible

/-- WindowHandle::set_image (lines 47-49): forwards set_window_image to the owning context with the stored id. -/
def WindowHandle.set_image (h : WindowHandle) (name : String) (image : Image) : Context × Except InvalidWindowIdError Unit :=
  h.context_handle.set_window_image h.window_id name image

/-- WindowHandle::add_event_handler (lines 51-56): forwards add_window_event_handler to the owning context with the stored id. -/
def WindowHandle.add_event_handler (h : WindowHandle) (handler : Nat) : Context × Except InvalidWindowIdError Unit :=
  h.context_handle.add_window_event_handler h.window_id handler

/-- WindowHandle::add_boxed_event_handler (lines 58-63): forwards add_boxed_window_event_handler to the owning context with the stored id. -/
def WindowHandle.add_boxed_event_handler (h : WindowHandle) (handler : Nat) : Context × Except InvalidWindowIdError Unit :=
  h.context_handle.add_boxed_window_event_handler h.window_id handler

/-- Lookup after an assignment: the assigned key reads the new value, every other key is unaffected. -/
theorem btGet_btSet {κ β : Type} [DecidableEq κ] (m : List (κ × β)) (k k2 : κ) (v : β) :
    btGet (btSet m k v) k2 = if k = k2 then some v else btGet m k2 := by
  induction m with
  | nil => by_cases h : k = k2 <;> simp [btSet, btGet, h]
  | cons e rest ih =>
    obtain ⟨a, b⟩ := e
    by_cases hak : a = k
    · subst hak
      by_cases hk2 : a = k2 <;> simp [btSet, btGet, hk2]
    · by_cases hk2 : a = k2
      · subst hk2
        have hne : k ≠ a := fun h => hak h.symm
        simp [btSet, btGet, hak, hne]
      · simp [btSet, btGet, hak, hk2, ih]

/-- Lookup distributes over append when the key misses the first map. -/
theorem btGet_append_none {κ β : Type} [DecidableEq κ] (m l : List (κ × β)) (k : κ)
    (h : btGet m k = none) : btGet (m ++ l) k = btGet l k := by
  induction m with
  | nil => simp
  | cons e rest ih =>
    obtain ⟨a, b⟩ := e
    by_cases hak : a = k
    · simp [btGet, hak] at h
    · simp only [btGet, hak, if_false] at h
      simp only [List.cons_append, btGet, hak, if_false]
      exact ih h

/-- Lookup distributes over append when the key hits the first map. -/
theorem btGet_append_some {κ β : Type} [DecidableEq κ] (m l : List (κ × β)) (k : κ) (v : β)
    (h : btGet m k = some v) : btGet (m ++ l) k = some v := by
  induction m with
  | nil => simp [btGet] at h
  | cons e rest ih =>
    obtain ⟨a, b⟩ := e
    by_cases hak : a = k
    · simp only [btGet, hak, if_true, if_pos] at h ⊢
      simpa [List.cons_append, btGet] using h
    · simp only [btGet, hak, if_false] at h
      simp only [List.cons_append, btGet, hak, if_false]
      exact ih h

/-- Lookup after an or-insert: the key reads its old value or the inserted default, every other key is unaffected. -/
theorem btGet_btOrInsert {κ β : Type} [DecidableEq κ] (m : List (κ × β)) (k k2 : κ) (v : β) :
    btGet (btOrInsert m k v) k2 = if k = k2 then some ((btGet m k).getD v) else btGet m k2 := by
  unfold btOrInsert
  cases hm : btGet m k with
  | some x =>
    by_cases hk : k = k2
    · subst hk; simp [hm]
    · simp [hk]
  | none =>
    by_cases hk : k = k2
    · subst hk
      rw [btGet_append_none m _ _ hm]
      simp [btGet]
    · cases hl : btGet m k2 with
      | some y => rw [btGet_append_some m _ _ _ hl]; simp [hk]
      | none =>
        rw [btGet_append_none m _ _ hl]
        simp [btGet, hk, fun h => hk h]

/-- Lookup after a removal: the removed key reads nothing, every other key is unaffected. -/
theorem btGet_btRemove {κ β : Type} [DecidableEq κ] (m : List (κ × β)) (a k : κ) :
    btGet (btRemove m a) k = if a = k then none else btGet m k := by
  induction m with
  | nil => simp [btRemove, btGet]
  | cons e rest ih =>
    obtain ⟨x, b⟩ := e
    by_cases hxa : x = a
    · subst hxa
      by_cases hk : x = k
      · subst hk
        simp [btRemove, btGet, ih]
      · simp [btRemove, btGet, hk, ih]
    · by_cases hk : x = k
      · subst hk
        have hne : ¬a = x := fun h => hxa h.symm
        simp [btRemove, btGet, hxa, hne]
      · simp [btRemove, btGet, hxa, hk, ih]

/-- Lookup after folding removals over a key list: a listed key reads nothing, every other key is unaffected. -/
theorem btGet_foldl_btRemove {κ β : Type} [DecidableEq κ] (ks : List κ) (m : List (κ × β)) (k : κ) :
    btGet (ks.foldl btRemove m) k = if k ∈ ks then none else btGet m k := by
  induction ks generalizing m with
  | nil => simp
  | cons a rest ih =>
    rw [List.foldl_cons, ih]
    by_cases hk : k ∈ rest
    · simp [hk]
    · rw [btGet_btRemove]
      by_cases hak : a = k
      · subst hak; simp
      · have hka : ¬k = a := fun h => hak h.symm
        simp [hk, hak, hka]

/-- A key's lookup misses exactly when the key is absent from the key list. -/
theorem btGet_eq_none_iff {κ β : Type} [DecidableEq κ] (m : List (κ × β)) (k : κ) :
    btGet m k = none ↔ k ∉ btKeys m := by
  induction m with
  | nil => simp [btGet, btKeys]
  | cons e rest ih =>
    obtain ⟨a, b⟩ := e
    by_cases hak : a = k
    · subst hak
      simp [btGet, btKeys]
    · have hka : ¬k = a := fun h => hak h.symm
      simp [btGet, btKeys, hak, hka, ih]

/-- Lookup after the per-device key sweep of remove_device: keys of the removed device read nothing, all other keys are unaffected. -/
theorem btGet_removeDeviceKeys {β : Type} (m : List ((WindowId × DeviceId) × β)) (d : DeviceId)
    (k : WindowId × DeviceId) :
    btGet (((btKeys m).filter (fun x => x.2 == d)).foldl btRemove m) k =
      if k.2 = d then none else btGet m k := by
  rw [btGet_foldl_btRemove]
  by_cases hm : k ∈ (btKeys m).filter (fun x => x.2 == d)
  · rw [if_pos hm]
    rw [List.mem_filter] at hm
    have hd : k.2 = d := by simpa using hm.2
    rw [if_pos hd]
  · rw [if_neg hm]
    by_cases hd : k.2 = d
    · rw [if_pos hd]
      have hk : k ∉ btKeys m := by
        intro hk
        exact hm (List.mem_filter.mpr ⟨hk, by simp [hd]⟩)
      exact (btGet_eq_none_iff m k).mpr hk
    · rw [if_neg hd]

/-- Current position after a cursor-moved event: the event's key reads the new position, every other key is unaffected. -/
theorem get_position_cursor_moved (c : MouseCache) (w : WindowId) (d : DeviceId) (p : Position)
    (w2 : WindowId) (d2 : DeviceId) :
    (c.handle_event (Event.windowEvent w (WinEvent.cursorMoved d p))).get_position w2 d2 =
      if (w, d) = (w2, d2) then some p else c.get_position w2 d2 := by
  simp only [MouseCache.handle_event, MouseCache.handle_window_event, MouseCache.get_position]
  rw [btGet_btSet, btGet_btOrInsert]
  by_cases h : (w, d) = (w2, d2) <;> simp [h]

/-- Previous position after a cursor-moved event: the event's key reads the pre-event current position (or the [0,0] default when the key was fresh), every other key is unaffected. -/
theorem get_previous_position_cursor_moved (c : MouseCache) (w : WindowId) (d : DeviceId)
    (p : Position) (w2 : WindowId) (d2 : DeviceId) :
    (c.handle_event (Event.windowEvent w (WinEvent.cursorMoved d p))).get_previous_position w2 d2 =
      if (w, d) = (w2, d2) then some ((c.get_position w d).getD ((0 : Rat), (0 : Rat)))
      else c.get_previous_position w2 d2 := by
  simp only [MouseCache.handle_event, MouseCache.handle_window_event,
    MouseCache.get_previous_position, MouseCache.get_position]
  rw [btGet_btSet, btGet_btOrInsert, btGet_btOrInsert]
  by_cases h : (w, d) = (w2, d2) <;> simp [h]

/-- A cursor-moved event does not touch the button map. -/
theorem get_buttons_cursor_moved (c : MouseCache) (w : WindowId) (d : DeviceId) (p : Position)
    (d2 : DeviceId) :
    (c.handle_event (Event.windowEvent w (WinEvent.cursorMoved d p))).get_buttons d2 =
      c.get_buttons d2 := rfl

/-- A mouse-input event does not touch either position map. -/
theorem positions_mouse_input (c : MouseCache) (w : WindowId) (d : DeviceId) (b : MouseButton)
    (s : ElementState) (w2 : WindowId) (d2 : DeviceId) :
    ((c.handle_event (Event.windowEvent w (WinEvent.mouseInput d b s))).get_position w2 d2 =
        c.get_position w2 d2)
    ∧ ((c.handle_event (Event.windowEvent w (WinEvent.mouseInput d b s))).get_previous_position w2 d2 =
        c.get_previous_position w2 d2) :=
  ⟨rfl, rfl⟩

/-- Buttons after a device-removed event: the removed device reads nothing, every other device is unaffected. -/
theorem get_buttons_device_removed (c : MouseCache) (d : DeviceId) (d2 : DeviceId) :
    (c.handle_event (Event.deviceEvent d DevEvent.removed)).get_buttons d2 =
      if d2 = d then none else c.get_buttons d2 := by
  simp only [MouseCache.handle_event, MouseCache.handle_device_event, MouseCache.remove_device,
    MouseCache.get_buttons]
  rw [btGet_btRemove]
  by_cases h : d = d2
  · subst h; simp
  · have h2 : ¬d2 = d := fun hh => h hh.symm
    simp [h, h2]

/-- Current positions after a device-removed event: every key of the removed device reads nothing, every other key is unaffected. -/
theorem get_position_device_removed (c : MouseCache) (d : DeviceId) (w2 : WindowId)
    (d2 : DeviceId) :
    (c.handle_event (Event.deviceEvent d DevEvent.removed)).get_position w2 d2 =
      if d2 = d then none else c.get_position w2 d2 := by
  simp only [MouseCache.handle_event, MouseCache.handle_device_event, MouseCache.remove_device,
    MouseCache.get_position]
  exact btGet_removeDeviceKeys c.mouse_position d (w2, d2)

/-- Previous positions after a device-removed event: every key of the removed device reads nothing, every other key is unaffected. -/
theorem get_previous_position_device_removed (c : MouseCache) (d : DeviceId) (w2 : WindowId)
    (d2 : DeviceId) :
    (c.handle_event (Event.deviceEvent d DevEvent.removed)).get_previous_position w2 d2 =
      if d2 = d then none else c.get_previous_position w2 d2 := by
  simp only [MouseCache.handle_event, MouseCache.handle_device_event, MouseCache.remove_device,
    MouseCache.get_previous_position]
  exact btGet_removeDeviceKeys c.mouse_previous_position d (w2, d2)

/-- Every event preserves the alignment of the two position maps. -/
theorem keysAligned_handle_event (c : MouseCache) (e : Event) (h : keysAligned c) :
    keysAligned (c.handle_event e) := by
  cases e with
  | windowEvent w we =>
    cases we with
    | mouseInput d b s =>
      intro w2 d2
      rw [(positions_mouse_input c w d b s w2 d2).1, (positions_mouse_input c w d b s w2 d2).2]
      exact h w2 d2
    | cursorMoved d p =>
      intro w2 d2
      rw [get_position_cursor_moved, get_previous_position_cursor_moved]
      by_cases hk : (w, d) = (w2, d2) <;> simp [hk, h w2 d2]
    | closeRequested => exact h
    | otherWindowEvent t => exact h
  | deviceEvent d de =>
    cases de with
    | removed =>
      intro w2 d2
      rw [get_position_device_removed, get_previous_position_device_removed]
      by_cases hd : d2 = d <;> simp [hd, h w2 d2]
    | added => exact h
    | otherDeviceEvent t => exact h
  | otherEvent t => exact h

/-- Alignment of the two position maps is preserved along any event sequence. -/
theorem keysAligned_processEvents (es : List Event) (c : MouseCache) (h : keysAligned c) :
    keysAligned (c.processEvents es) := by
  induction es generalizing c with
  | nil => exact h
  | cons e rest ih =>
    exact ih (c.handle_event e) (keysAligned_handle_event c e h)

/-- The empty cache is aligned. -/
theorem keysAligned_default : keysAligned MouseCache.default := by
  intro w d
  rfl

/-- C1: after any three cursor-moved events with positions p1, p2, p3 on a fixed (window, device) key, from any cache state, get_position returns p3 and get_previous_position returns p2 — the previous position reflects the current position immediately before the latest update, never the new value. -/
theorem cursor_moved_sequence_positions (c : MouseCache) (w : WindowId) (d : DeviceId)
    (p1 p2 p3 : Position) :
    ((c.processEvents
        [Event.windowEvent w (WinEvent.cursorMoved d p1),
         Event.windowEvent w (WinEvent.cursorMoved d p2),
         Event.windowEvent w (WinEvent.cursorMoved d p3)]).get_position w d = some p3)
    ∧ ((c.processEvents
        [Event.windowEvent w (WinEvent.cursorMoved d p1),
         Event.windowEvent w (WinEvent.cursorMoved d p2),
         Event.windowEvent w (WinEvent.cursorMoved d p3)]).get_previous_position w d = some p2) := by
  constructor
  · simp only [MouseCache.processEvents, List.foldl_cons, List.foldl_nil]
    rw [get_position_cursor_moved]
    simp
  · simp only [MouseCache.processEvents, List.foldl_cons, List.foldl_nil]
    rw [get_previous_position_cursor_moved, if_pos rfl, get_position_cursor_moved, if_pos rfl]
    rfl

/-- C2: after a device-removed event for device d, get_buttons d, and get_position and get_previous_position at d under every window, all return none, while every entry keyed by any other device is unchanged. -/
theorem device_removed_clears_device (c : MouseCache) (d : DeviceId) :
    ((c.handle_event (Event.deviceEvent d DevEvent.removed)).get_buttons d = none)
    ∧ (∀ w, (c.handle_event (Event.deviceEvent d DevEvent.removed)).get_position w d = none)
    ∧ (∀ w, (c.handle_event (Event.deviceEvent d DevEvent.removed)).get_previous_position w d = none)
    ∧ (∀ d2, d2 ≠ d →
        ((c.handle_event (Event.deviceEvent d DevEvent.removed)).get_buttons d2 = c.get_buttons d2)
        ∧ (∀ w, (c.handle_event (Event.deviceEvent d DevEvent.removed)).get_position w d2 =
            c.get_position w d2)
        ∧ (∀ w, (c.handle_event (Event.deviceEvent d DevEvent.removed)).get_previous_position w d2 =
            c.get_previous_position w d2)) := by
  refine ⟨?_, fun w => ?_, fun w => ?_, fun d2 hne => ⟨?_, fun w => ?_, fun w => ?_⟩⟩
  · rw [get_buttons_device_removed, if_pos rfl]
  · rw [get_position_device_removed, if_pos rfl]
  · rw [get_previous_position_device_removed, if_pos rfl]
  · rw [get_buttons_device_removed, if_neg hne]
  · rw [get_position_device_removed, if_neg hne]
  · rw [get_previous_position_device_removed, if_neg hne]

/-- Witness for C2 at a concrete cache with two devices: removing device 0 empties its entry while the entry of device 1 survives unchanged. -/
theorem device_removed_clears_device_witness :
    (((MouseCache.default.processEvents sampleEvents).handle_event
        (Event.deviceEvent 0 DevEvent.removed)).get_position 1 0 = none)
    ∧ (((MouseCache.default.processEvents sampleEvents).handle_event
        (Event.deviceEvent 0 DevEvent.removed)).get_position 1 1 =
        (MouseCache.default.processEvents sampleEvents).get_position 1 1) :=
  ⟨(device_removed_clears_device (MouseCache.default.processEvents sampleEvents) 0).2.1 1,
   ((device_removed_clears_device (MouseCache.default.processEvents sampleEvents) 0).2.2.2 1
      (by decide)).2.1 1⟩

/-- C5: the first cursor-moved event on a (window, device) key with no prior entry stores the event position as current and the [0,0] default as previous. -/
theorem first_cursor_moved_defaults (c : MouseCache) (w : WindowId) (d : DeviceId) (p : Position)
    (hfresh : c.get_position w d = none) :
    ((c.handle_event (Event.windowEvent w (WinEvent.cursorMoved d p))).get_position w d = some p)
    ∧ ((c.handle_event (Event.windowEvent w (WinEvent.cursorMoved d p))).get_previous_position w d =
        some ((0 : Rat), (0 : Rat))) := by
  constructor
  · rw [get_position_cursor_moved, if_pos rfl]
  · rw [get_previous_position_cursor_moved, if_pos rfl, hfresh]
    rfl

/-- Witness for C5 at the empty cache: the first cursor-moved event on (3, 4) reads back position (5, 6) and previous position (0, 0). -/
theorem first_cursor_moved_defaults_witness :
    ((MouseCache.default.handle_event
        (Event.windowEvent 3 (WinEvent.cursorMoved 4 (5, 6)))).get_position 3 4 = some (5, 6))
    ∧ ((MouseCache.default.handle_event
        (Event.windowEvent 3 (WinEvent.cursorMoved 4 (5, 6)))).get_previous_position 3 4 =
        some ((0 : Rat), (0 : Rat))) :=
  first_cursor_moved_defaults MouseCache.default 3 4 (5, 6) (by decide)

/-- C4: along any event sequence from the empty cache, every key present in the previous-position map is also present in the position map — whenever get_previous_position returns a value, get_position does too. -/
theorem previous_position_key_in_position (es : List Event) (w : WindowId) (d : DeviceId)
    (h : ((MouseCache.default.processEvents es).get_previous_position w d).isSome = true) :
    ((MouseCache.default.processEvents es).get_position w d).isSome = true := by
  rw [keysAligned_processEvents es MouseCache.default keysAligned_default w d]
  exact h

/-- Witness for C4 at a concrete one-event sequence. -/
theorem previous_position_key_in_position_witness :
    ((MouseCache.default.processEvents
        [Event.windowEvent 1 (WinEvent.cursorMoved 2 (5, 6))]).get_position 1 2).isSome = true :=
  previous_position_key_in_position [Event.windowEvent 1 (WinEvent.cursorMoved 2 (5, 6))] 1 2
    (by decide)

/-- C9: along any event sequence from the empty cache, the key sets of the position and previous-position maps are exactly equal — get_position returns a value if and only if get_previous_position does. -/
theorem position_key_sets_equal (es : List Event) (w : WindowId) (d : DeviceId) :
    (((MouseCache.default.processEvents es).get_position w d).isSome = true)
    ↔ (((MouseCache.default.processEvents es).get_previous_position w d).isSome = true) := by
  rw [keysAligned_processEvents es MouseCache.default keysAligned_default w d]

/-- C7: every event that is not a window-scoped mouse-input event, not a window-scoped cursor-moved event, and not a device-removed event — window-closed, device-added, and every other window, device or top-level variant — leaves the cache, and hence all three of its maps, unchanged. -/
theorem ignored_events_are_noops (c : MouseCache) (w : WindowId) (d : DeviceId) (tag : Nat) :
    (c.handle_event (Event.windowEvent w WinEvent.closeRequested) = c)
    ∧ (c.handle_event (Event.windowEvent w (WinEvent.otherWindowEvent tag)) = c)
    ∧ (c.handle_event (Event.deviceEvent d DevEvent.added) = c)
    ∧ (c.handle_event (Event.deviceEvent d (DevEvent.otherDeviceEvent tag)) = c)
    ∧ (c.handle_event (Event.otherEvent tag) = c) :=
  ⟨rfl, rfl, rfl, rfl, rfl⟩

/-- C3: with preserve_aspect_ratio set and an image present, calculate_scale returns [1, ratios.2/ratios.1] when ratios.1 is at least ratios.2 and [ratios.1/ratios.2, 1] otherwise, where ratios are the image-to-window size quotients; in consequence the larger axis of the result is exactly 1. -/
theorem calculate_scale_preserve_aspect (w : Window) (img : Texture)
    (himg : w.image = some img)
    (hpar : w.options.preserve_aspect_ratio = true)
    (hww : 0 < w.inner_size.1) (hwh : 0 < w.inner_size.2)
    (hiw : 0 < img.width) (hih : 0 < img.height) :
    (w.calculate_scale =
      if (img.width : Rat) / (w.inner_size.1 : Rat) ≥ (img.height : Rat) / (w.inner_size.2 : Rat)
      then ((1 : Rat),
        ((img.height : Rat) / (w.inner_size.2 : Rat)) / ((img.width : Rat) / (w.inner_size.1 : Rat)))
      else (((img.width : Rat) / (w.inner_size.1 : Rat)) / ((img.height : Rat) / (w.inner_size.2 : Rat)),
        (1 : Rat)))
    ∧ max (w.calculate_scale).1 (w.calculate_scale).2 = 1 := by
  have hr1 : (0 : Rat) < (img.width : Rat) / (w.inner_size.1 : Rat) :=
    div_pos (by exact_mod_cast hiw) (by exact_mod_cast hww)
  have hr2 : (0 : Rat) < (img.height : Rat) / (w.inner_size.2 : Rat) :=
    div_pos (by exact_mod_cast hih) (by exact_mod_cast hwh)
  have hdef : w.calculate_scale =
      if (img.width : Rat) / (w.inner_size.1 : Rat) ≥ (img.height : Rat) / (w.inner_size.2 : Rat)
      then ((1 : Rat),
        ((img.height : Rat) / (w.inner_size.2 : Rat)) / ((img.width : Rat) / (w.inner_size.1 : Rat)))
      else (((img.width : Rat) / (w.inner_size.1 : Rat)) / ((img.height : Rat) / (w.inner_size.2 : Rat)),
        (1 : Rat)) := by
    unfold Window.calculate_scale
    rw [hpar, himg]
    simp
  refine ⟨hdef, ?_⟩
  rw [hdef]
  by_cases hc :
      (img.width : Rat) / (w.inner_size.1 : Rat) ≥ (img.height : Rat) / (w.inner_size.2 : Rat)
  · rw [if_pos hc]
    exact max_eq_left ((div_le_one hr1).mpr hc)
  · rw [if_neg hc]
    exact max_eq_right ((div_le_one hr2).mpr (le_of_lt (lt_of_not_ge hc)))

/-- Witness for C3: an 800 by 600 image in a 400 by 400 window scales to [1, 3/4], whose larger axis is 1. -/
theorem calculate_scale_preserve_aspect_witness :
    (Window.calculate_scale
        { options := WindowOptions.default, image := some ⟨800, 600⟩, inner_size := (400, 400) } =
      ((1 : Rat), (3 / 4 : Rat)))
    ∧ max (Window.calculate_scale
        { options := WindowOptions.default, image := some ⟨800, 600⟩, inner_size := (400, 400) }).1
      (Window.calculate_scale
        { options := WindowOptions.default, image := some ⟨800, 600⟩, inner_size := (400, 400) }).2
      = 1 := by
  have h := calculate_scale_preserve_aspect
    { options := WindowOptions.default, image := some ⟨800, 600⟩, inner_size := (400, 400) }
    ⟨800, 600⟩ rfl rfl (by decide) (by decide) (by decide) (by decide)
  refine ⟨?_, h.2⟩
  rw [h.1]
  norm_num

/-- C6: calculate_scale returns [1, 1] whenever preserve_aspect_ratio is off, regardless of image and window size, and also whenever no image is set. -/
theorem calculate_scale_trivial_cases (w : Window) :
    (w.options.preserve_aspect_ratio = false → w.calculate_scale = (1, 1))
    ∧ (w.image = none → w.calculate_scale = (1, 1)) := by
  constructor
  · intro h
    unfold Window.calculate_scale
    simp [h]
  · intro h
    unfold Window.calculate_scale
    by_cases hp : w.options.preserve_aspect_ratio <;> simp [hp, h]

/-- Witness for C6 at two concrete windows: aspect preservation off with an image set, and aspect preservation on with no image. -/
theorem calculate_scale_trivial_cases_witness :
    (Window.calculate_scale
        { options := WindowOptions.default.set_preserve_aspect_ratio false,
          image := some ⟨800, 600⟩, inner_size := (400, 300) } = (1, 1))
    ∧ (Window.calculate_scale
        { options := WindowOptions.default, image := none, inner_size := (400, 300) } = (1, 1)) :=
  ⟨(calculate_scale_trivial_cases
      { options := WindowOptions.default.set_preserve_aspect_ratio false,
        image := some ⟨800, 600⟩, inner_size := (400, 300) }).1 rfl,
   (calculate_scale_trivial_cases
      { options := WindowOptions.default, image := none, inner_size := (400, 300) }).2 rfl⟩

/-- C8: on a WindowHandle whose stored id is absent from the owning context, each mutating operation — destroy, set_visible, set_image, add_event_handler, add_boxed_event_handler — returns the invalid-window-id error as a result value and leaves the context state unmutated. -/
theorem window_handle_invalid_id_errors (ctx : Context) (wid : WindowId)
    (habsent : btGet ctx.windows wid = none) :
    (WindowHandle.destroy ⟨ctx, wid⟩ = (ctx, Except.error ⟨wid⟩))
    ∧ (∀ v, WindowHandle.set_visible ⟨ctx, wid⟩ v = (ctx, Except.error ⟨wid⟩))
    ∧ (∀ name img, WindowHandle.set_image ⟨ctx, wid⟩ name img = (ctx, Except.error ⟨wid⟩))
    ∧ (∀ hnd, WindowHandle.add_event_handler ⟨ctx, wid⟩ hnd = (ctx, Except.error ⟨wid⟩))
    ∧ (∀ hnd, WindowHandle.add_boxed_event_handler ⟨ctx, wid⟩ hnd = (ctx, Except.error ⟨wid⟩)) := by
  refine ⟨?_, fun v => ?_, fun name img => ?_, fun hnd => ?_, fun hnd => ?_⟩ <;>
    simp [WindowHandle.destroy, WindowHandle.set_visible, WindowHandle.set_image,
      WindowHandle.add_event_handler, WindowHandle.add_boxed_event_handler,
      Context.destroy_window, Context.set_window_visible, Context.set_window_image,
      Context.add_window_event_handler, Context.add_boxed_window_event_handler, habsent]

/-- Witness for C8: a context holding only window 1, addressed through a handle storing id 2. -/
theorem window_handle_invalid_id_errors_witness :
    (WindowHandle.destroy ⟨⟨[(1, ⟨true, none, []⟩)]⟩, 2⟩ =
      (⟨[(1, ⟨true, none, []⟩)]⟩, Except.error ⟨2⟩))
    ∧ (WindowHandle.set_visible ⟨⟨[(1, ⟨true, none, []⟩)]⟩, 2⟩ false =
      (⟨[(1, ⟨true, none, []⟩)]⟩, Except.error ⟨2⟩)) :=
  ⟨(window_handle_invalid_id_errors ⟨[(1, ⟨true, none, []⟩)]⟩ 2 (by decide)).1,
   (window_handle_invalid_id_errors ⟨[(1, ⟨true, none, []⟩)]⟩ 2 (by decide)).2.1 false⟩

/-- C10: WindowOptions::default() sets preserve_aspect_ratio true, background_color black, start_hidden false, size none and resizable true; and each builder setter returns a copy where only the named field takes the given value (set_size storing it wrapped in some). -/
theorem window_options_default_and_setters (o : WindowOptions) (b : Bool) (col : Color)
    (hidden0 : Bool) (s : Nat × Nat) (r : Bool) :
    (WindowOptions.default.preserve_aspect_ratio = true)
    ∧ (WindowOptions.default.background_color = Color.BLACK)
    ∧ (WindowOptions.default.start_hidden = false)
    ∧ (WindowOptions.default.size = none)
    ∧ (WindowOptions.default.resizable = true)
    ∧ (o.set_preserve_aspect_ratio b = { o with preserve_aspect_ratio := b })
    ∧ (o.set_background_color col = { o with background_color := col })
    ∧ (o.set_start_hidden hidden0 = { o with start_hidden := hidden0 })
    ∧ (o.set_size s = { o with size := some s })
    ∧ (o.set_resizable r = { o with resizable := r }) :=
  ⟨rfl, rfl, rfl, rfl, rfl, rfl, rfl, rfl, rfl, rfl⟩

end ShowImage
